import Mathlib

/-!
Shallow embedding of the treddy-mercury treadmill client:
frame decoder, reading aggregator, run reconstructor and energy estimator.
-/

namespace TreddyMercury

/-- A decoded reading event, as stored in the `parsed_events` deque:
a `0x00` frame yields a kinematic event (speed, incline, distance),
a `0x01` frame yields an elapsed-time event. -/
inductive Event where
  | kin (speed_kph incline_deg distance_km : ℚ)
  | tim (seconds_total : ℚ)
deriving DecidableEq, Repr

/-- Outcome of one call to the frame decoder. -/
inductive ParseResult where
  | ignored
  | unknown
  | event (e : Event)
deriving DecidableEq, Repr

/-- `struct.unpack_from("<H", data, off)[0]`: little-endian unsigned 16-bit
read; raises (`.error`) when the buffer holds fewer than `off + 2` bytes. -/
def u16le (data : List ℕ) (off : ℕ) : Except Unit ℚ :=
  if off + 2 ≤ data.length then
    .ok ((data.getD off 0 : ℚ) + 256 * (data.getD (off + 1) 0 : ℚ))
  else
    .error ()

/-- `parse_treadmill_data` from `src/main.py` (lines 100-132): buffers shorter
than 12 bytes return early; then the first byte is matched: `0x00` decodes
speed/incline/distance at offsets 10/12/16 (scaled by 100/100/1000),
`0x01` decodes elapsed seconds at offset 9, `0xFF` and `0xFE` return
silently, and any other discriminator prints an unknown-type diagnostic. -/
def parse_treadmill_data (data : List ℕ) : Except Unit ParseResult :=
  if data.length < 12 then .ok .ignored
  else if data.headD 0 = 0x00 then do
    let s ← u16le data 10
    let i ← u16le data 12
    let d ← u16le data 16
    .ok (.event (.kin (s / 100) (i / 100) (d / 1000)))
  else if data.headD 0 = 0x01 then do
    let t ← u16le data 9
    .ok (.event (.tim t))
  else if data.headD 0 = 0xFF then .ok .ignored
  else if data.headD 0 = 0xFE then .ok .ignored
  else .ok .unknown

/-- `TreadmillApp.parse_treadmill_data` from `src/treddy-mercury/main.py`
(lines 206-225): same length guard and offsets, but the `match` has only the
`0x00` and `0x01` arms, so every other discriminator falls through silently. -/
def app_parse_treadmill_data (data : List ℕ) : Except Unit ParseResult :=
  if data.length < 12 then .ok .ignored
  else if data.headD 0 = 0x00 then do
    let s ← u16le data 10
    let i ← u16le data 12
    let d ← u16le data 16
    .ok (.event (.kin (s / 100) (i / 100) (d / 1000)))
  else if data.headD 0 = 0x01 then do
    let t ← u16le data 9
    .ok (.event (.tim t))
  else .ok .ignored

/-- The readings a parse outcome appends to the `parsed_events` deque. -/
def eventsOf : ParseResult → List Event
  | .event e => [e]
  | _ => []

/-! ### Reading Aggregator (`get_current_status`, `src/main.py` lines 72-93) -/

/-- The value `get_current_status` returns, one slot per metric field. -/
structure TreadmillStatus where
  speed_kph : ℚ
  incline_deg : ℚ
  distance_km : ℚ
  seconds_total : ℚ
deriving DecidableEq, Repr

/-- Python's `x or y` on numbers: `y` when `x` is zero (falsy), else `x`. -/
def pyOr (x y : ℚ) : ℚ := if x = 0 then y else x

/-- `event.get("speed_kph", 0)`. -/
def getSpeed : Event → ℚ
  | .kin s _ _ => s
  | .tim _ => 0

/-- `event.get("incline_deg", 0)`. -/
def getIncline : Event → ℚ
  | .kin _ i _ => i
  | .tim _ => 0

/-- `event.get("distance_km", 0)`. -/
def getDistance : Event → ℚ
  | .kin _ _ d => d
  | .tim _ => 0

/-- `event.get("seconds_total", 0)`. -/
def getSeconds : Event → ℚ
  | .kin _ _ _ => 0
  | .tim t => t

/-- The loop body of `get_current_status`: walk the events newest first,
fill each still-falsy accumulator slot with the event's value via `or`, and
break once speed and incline are nonnegative while distance and elapsed
seconds are strictly positive. -/
def statusAux : List Event → ℚ × ℚ × ℚ × ℚ → ℚ × ℚ × ℚ × ℚ
  | [], acc => acc
  | e :: rest, (s, i, d, t) =>
    let s' := pyOr s (getSpeed e)
    let i' := pyOr i (getIncline e)
    let d' := pyOr d (getDistance e)
    let t' := pyOr t (getSeconds e)
    if 0 ≤ s' ∧ 0 ≤ i' ∧ 0 < d' ∧ 0 < t' then (s', i', d', t')
    else statusAux rest (s', i', d', t')

/-- `get_current_status` from `src/main.py`: iterate `reversed(parsed_events)`
starting from all-zero accumulators. The list argument is the deque in append
order (oldest first). -/
def get_current_status (events : List Event) : TreadmillStatus :=
  match statusAux events.reverse (0, 0, 0, 0) with
  | (s, i, d, t) => ⟨s, i, d, t⟩

/-- The fields of the first kinematic (`0x00`) event of a list, if any. -/
def firstKin : List Event → Option (ℚ × ℚ × ℚ)
  | [] => none
  | .kin s i d :: _ => some (s, i, d)
  | .tim _ :: rest => firstKin rest

/-- The value of the first elapsed-time (`0x01`) event of a list, if any. -/
def firstTim : List Event → Option ℚ
  | [] => none
  | .kin _ _ _ :: rest => firstTim rest
  | .tim t :: _ => some t

/-- The fields of the most recent kinematic event, if any. -/
def lastKin (events : List Event) : Option (ℚ × ℚ × ℚ) :=
  firstKin events.reverse

/-- The value of the most recent elapsed-time event, if any. -/
def lastTim (events : List Event) : Option ℚ :=
  firstTim events.reverse

/-- An event all of whose carried fields are strictly positive (truthy). -/
def wfEvent : Event → Prop
  | .kin s i d => 0 < s ∧ 0 < i ∧ 0 < d
  | .tim t => 0 < t

/-! ### Energy Estimator (`calculate_calories`, `src/treadfit/fitbit_upload.py`
lines 12-49).  The composition `math.tan ∘ math.radians` is transcendental, so
the embedding takes it as an explicit function parameter `tanRad`; every
theorem below is stated for all `tanRad` satisfying the facts it needs
(e.g. `tanRad 0 = 0`, which holds of the real function). -/

/-- `calculate_calories(weight_kg, speed_kph, incline_deg, duration_seconds)`:
ACSM walking equation at `speed_kph ≤ 6.0`, running equation above. -/
def calculate_calories (tanRad : ℚ → ℚ)
    (weight_kg speed_kph incline_deg duration_seconds : ℚ) : ℚ :=
  if duration_seconds ≤ 0 then 0
  else
    let speed_m_min := speed_kph * 1000 / 60
    let grade_fraction := tanRad incline_deg
    let vo2_ml_kg_min :=
      if speed_kph ≤ 6 then
        3.5 + 0.1 * speed_m_min + 1.8 * speed_m_min * grade_fraction
      else
        3.5 + 0.2 * speed_m_min + 0.9 * speed_m_min * grade_fraction
    let kcal_per_min := vo2_ml_kg_min * weight_kg / 1000 * 5
    kcal_per_min * (duration_seconds / 60)

/-- The Energy Estimator contract transcribed from the spec's own words
(§4.5), to be compared with `calculate_calories` as embedded from the code. -/
def estimate_spec (tanRad : ℚ → ℚ)
    (weight_kg speed_kph incline_deg duration_seconds : ℚ) : ℚ :=
  if duration_seconds ≤ 0 then 0
  else
    let speed_m_min := speed_kph * 1000 / 60
    let grade := tanRad incline_deg
    let vo2 :=
      if speed_kph ≤ 6 then 3.5 + 0.1 * speed_m_min + 1.8 * speed_m_min * grade
      else 3.5 + 0.2 * speed_m_min + 0.9 * speed_m_min * grade
    vo2 * weight_kg / 1000 * 5 * (duration_seconds / 60)

/-! ### Run Reconstructor (`process_existing_runs`,
`src/treadfit/fitbit_upload.py` lines 91-234).  `math.sin ∘ math.radians` is
likewise passed as a function parameter `sinRad`. -/

/-- One persisted checkpoint record (`save_loop` writes these five keys). -/
structure Snapshot where
  timestamp : ℚ
  speed_kph : ℚ
  incline_deg : ℚ
  distance_km : ℚ
  seconds_total : ℚ
deriving DecidableEq, Repr

/-- The four running totals accumulated over consecutive snapshot pairs. -/
structure RunTotals where
  total_distance_km : ℚ
  total_duration_sec : ℚ
  total_elevation_gain_m : ℚ
  total_calories : ℚ
deriving DecidableEq, Repr

/-- All totals start at zero (lines 121-124). -/
def RunTotals.zero : RunTotals := ⟨0, 0, 0, 0⟩

/-- One iteration of the pair walk (lines 134-185): state is the previous
snapshot plus the totals.  A pair with `dist_delta < -0.1` or
`sec_delta < -5` is a reset: nothing is accumulated, the previous snapshot
still advances.  Otherwise positive distance deltas add distance and
elevation, positive time deltas add duration and segment calories. -/
def segmentStep (sinRad tanRad : ℚ → ℚ) (user_weight_kg : ℚ)
    (st : Snapshot × RunTotals) (curr : Snapshot) : Snapshot × RunTotals :=
  let prev := st.1
  let t := st.2
  let dist_delta := curr.distance_km - prev.distance_km
  let sec_delta := curr.seconds_total - prev.seconds_total
  if dist_delta < -0.1 ∨ sec_delta < -5 then
    (curr, t)
  else
    let t1 :=
      if dist_delta > 0 then
        { t with
          total_distance_km := t.total_distance_km + dist_delta
          total_elevation_gain_m :=
            t.total_elevation_gain_m + dist_delta * 1000 * sinRad prev.incline_deg }
      else t
    let t2 :=
      if sec_delta > 0 then
        let calc_speed := if dist_delta > 0 then dist_delta / sec_delta * 3600 else 0
        let used_speed := if prev.speed_kph > 0 then prev.speed_kph else calc_speed
        { t1 with
          total_duration_sec := t1.total_duration_sec + sec_delta
          total_calories :=
            t1.total_calories +
              calculate_calories tanRad user_weight_kg used_speed prev.incline_deg
                sec_delta }
      else t1
    (curr, t2)

/-- The whole pair walk over a (sorted) batch: fewer than two points
contribute nothing (lines 127-129), otherwise fold `segmentStep` from the
first point. -/
def walkPairs (sinRad tanRad : ℚ → ℚ) (w : ℚ) : List Snapshot → RunTotals
  | [] => RunTotals.zero
  | p :: rest => (rest.foldl (segmentStep sinRad tanRad w) (p, RunTotals.zero)).2

/-- The per-run aggregate handed to the Export Pipeline. -/
structure RunSummary where
  total_distance_km : ℚ
  total_duration_sec : ℚ
  total_elevation_gain_m : ℚ
  total_calories : ℚ
  avg_speed_kmh : ℚ
deriving DecidableEq, Repr

/-- `data_points.sort(key=lambda x: x["timestamp"])`: a stable sort by
timestamp (insertion sort agrees with Python's stable sort on batches with
distinct timestamps, which is all the claims use). -/
def sortByTimestamp (pts : List Snapshot) : List Snapshot :=
  List.insertionSort (fun a b => a.timestamp ≤ b.timestamp) pts

/-- Reconstruction of one batch (lines 111-195): sort, walk the pairs, fall
back to wall-clock duration when the accumulated duration is non-positive,
and derive the reported average speed. -/
def reconstruct (sinRad tanRad : ℚ → ℚ) (w : ℚ) (pts : List Snapshot) : RunSummary :=
  let sorted := sortByTimestamp pts
  let first_point := sorted.headD ⟨0, 0, 0, 0, 0⟩
  let last_point := sorted.getLastD ⟨0, 0, 0, 0, 0⟩
  let t := walkPairs sinRad tanRad w sorted
  let dur :=
    if t.total_duration_sec ≤ 0 then last_point.timestamp - first_point.timestamp
    else t.total_duration_sec
  let avg := if dur > 0 then t.total_distance_km / dur * 3600 else 0
  ⟨t.total_distance_km, dur, t.total_elevation_gain_m, t.total_calories, avg⟩

/-- One YAML document as loaded by `yaml.safe_load_all`: a record-list, a
single record, or something else (skipped by the flattening loop). -/
inductive YamlDoc where
  | docList (xs : List Snapshot)
  | docDict (x : Snapshot)
  | docOther
deriving Repr

/-- The flattening loop of lines 99-104. -/
def flattenDocs : List YamlDoc → List Snapshot
  | [] => []
  | .docList xs :: rest => xs ++ flattenDocs rest
  | .docDict x :: rest => x :: flattenDocs rest
  | .docOther :: rest => flattenDocs rest

/-- What one pass does to one checkpoint file. -/
inductive FileOutcome where
  | keptAfterError
  | deletedNoData
  | deletedTooShort (r : RunSummary)
  | exported (r : RunSummary)
deriving DecidableEq, Repr

/-- Per-file processing (lines 91-234): a parse exception is caught, logged
and the file kept; no data points deletes the file; total distance at most
0.01 km deletes the file without export; otherwise the run goes to the
Export Pipeline. -/
def process_file (sinRad tanRad : ℚ → ℚ) (w : ℚ)
    (parsed : Except Unit (List YamlDoc)) : FileOutcome :=
  match parsed with
  | .error _ => .keptAfterError
  | .ok docs =>
    match flattenDocs docs with
    | [] => .deletedNoData
    | p :: rest =>
      let r := reconstruct sinRad tanRad w (p :: rest)
      if r.total_distance_km ≤ 0.01 then .deletedTooShort r else .exported r

/-- Resolution of one accumulator slot against the first event that carries
the field: keep a truthy accumulator, otherwise take the event value
(default 0 when no event ever carried the field). -/
def resolve (x : ℚ) (o : Option ℚ) : ℚ :=
  if x = 0 then o.getD 0 else x

end TreddyMercury

namespace TreddyMercury

theorem pyOr_zero_right (x : ℚ) : pyOr x 0 = x := by
  unfold pyOr; split <;> simp_all

theorem pyOr_pos {x y : ℚ} (hx : 0 ≤ x) (hy : 0 < y) : 0 < pyOr x y := by
  unfold pyOr; split
  · exact hy
  · exact lt_of_le_of_ne hx (Ne.symm (by assumption))

theorem pyOr_nonneg {x y : ℚ} (hx : 0 ≤ x) (hy : 0 ≤ y) : 0 ≤ pyOr x y := by
  unfold pyOr; split <;> assumption

theorem resolve_none (x : ℚ) : resolve x none = x := by
  unfold resolve; split <;> simp_all

theorem resolve_some (x y : ℚ) : resolve x (some y) = pyOr x y := rfl

theorem resolve_of_ne {x : ℚ} (h : x ≠ 0) (o : Option ℚ) : resolve x o = x := by
  unfold resolve; simp [h]

theorem resolve_zero (o : Option ℚ) : resolve 0 o = o.getD 0 := by
  unfold resolve; simp

/-- Characterization of the `get_current_status` loop on well-formed events
(each carried field strictly positive): every slot resolves against the most
recent event carrying it, subject to the loop's early break.  The invariant
`hlink` records that the distance slot is filled only together with the
speed and incline slots, which is how the loop actually runs (all three are
set by the same kinematic event). -/
theorem statusAux_resolve (l : List Event) (s i d t : ℚ)
    (hwf : ∀ e ∈ l, wfEvent e)
    (hs : 0 ≤ s) (hi : 0 ≤ i) (hd : 0 ≤ d) (ht : 0 ≤ t)
    (hlink : d ≠ 0 → s ≠ 0 ∧ i ≠ 0) :
    statusAux l (s, i, d, t) =
      (resolve s ((firstKin l).map fun p => p.1),
       resolve i ((firstKin l).map fun p => p.2.1),
       resolve d ((firstKin l).map fun p => p.2.2),
       resolve t (firstTim l)) := by
  induction l generalizing s i d t with
  | nil =>
      simp [statusAux, firstKin, firstTim, resolve_none]
  | cons e rest ih =>
      have hwfe : wfEvent e := hwf e (List.mem_cons_self e rest)
      have hwfr : ∀ x ∈ rest, wfEvent x := fun x hx => hwf x (List.mem_cons_of_mem e hx)
      cases e with
      | kin a b c =>
          obtain ⟨ha, hb, hc⟩ := hwfe
          have hs' : 0 < pyOr s a := pyOr_pos hs ha
          have hi' : 0 < pyOr i b := pyOr_pos hi hb
          have hd' : 0 < pyOr d c := pyOr_pos hd hc
          show (if 0 ≤ pyOr s (getSpeed (.kin a b c)) ∧ 0 ≤ pyOr i (getIncline (.kin a b c)) ∧
                  0 < pyOr d (getDistance (.kin a b c)) ∧ 0 < pyOr t (getSeconds (.kin a b c))
              then (pyOr s (getSpeed (.kin a b c)), pyOr i (getIncline (.kin a b c)),
                    pyOr d (getDistance (.kin a b c)), pyOr t (getSeconds (.kin a b c)))
              else statusAux rest
                (pyOr s (getSpeed (.kin a b c)), pyOr i (getIncline (.kin a b c)),
                 pyOr d (getDistance (.kin a b c)), pyOr t (getSeconds (.kin a b c)))) = _
          simp only [getSpeed, getIncline, getDistance, getSeconds, pyOr_zero_right]
          by_cases hT : 0 < t
          · rw [if_pos ⟨le_of_lt hs', le_of_lt hi', hd', hT⟩]
            simp only [firstKin, firstTim, Option.map_some']
            rw [resolve_some, resolve_some, resolve_some, resolve_of_ne (ne_of_gt hT)]
          · rw [if_neg (by intro h; exact hT h.2.2.2)]
            rw [ih _ _ _ _ hwfr (le_of_lt hs') (le_of_lt hi') (le_of_lt hd') ht
                (fun _ => ⟨ne_of_gt hs', ne_of_gt hi'⟩)]
            simp only [firstKin, firstTim, Option.map_some']
            rw [resolve_of_ne (ne_of_gt hs'), resolve_of_ne (ne_of_gt hi'),
                resolve_of_ne (ne_of_gt hd'), resolve_some, resolve_some, resolve_some]
      | tim u =>
          have hu : 0 < u := hwfe
          have ht' : 0 < pyOr t u := pyOr_pos ht hu
          show (if 0 ≤ pyOr s (getSpeed (.tim u)) ∧ 0 ≤ pyOr i (getIncline (.tim u)) ∧
                  0 < pyOr d (getDistance (.tim u)) ∧ 0 < pyOr t (getSeconds (.tim u))
              then (pyOr s (getSpeed (.tim u)), pyOr i (getIncline (.tim u)),
                    pyOr d (getDistance (.tim u)), pyOr t (getSeconds (.tim u)))
              else statusAux rest
                (pyOr s (getSpeed (.tim u)), pyOr i (getIncline (.tim u)),
                 pyOr d (getDistance (.tim u)), pyOr t (getSeconds (.tim u)))) = _
          simp only [getSpeed, getIncline, getDistance, getSeconds, pyOr_zero_right]
          by_cases hD : 0 < d
          · rw [if_pos ⟨hs, hi, hD, ht'⟩]
            obtain ⟨hsne, hine⟩ := hlink (ne_of_gt hD)
            simp only [firstKin, firstTim]
            rw [resolve_of_ne hsne, resolve_of_ne hine,
                resolve_of_ne (ne_of_gt hD), resolve_some]
          · rw [if_neg (by intro h; exact hD h.2.2.1)]
            have hd0 : d = 0 := le_antisymm (not_lt.1 hD) hd
            rw [ih _ _ _ _ hwfr hs hi hd (le_of_lt ht') (fun h => absurd hd0 h)]
            simp only [firstKin, firstTim]
            rw [resolve_of_ne (ne_of_gt ht'), resolve_some]

/-- C1 counterexample: after a kinematic frame carrying speed 5.0 and then a
kinematic frame carrying speed 0.0, the most recent frame that set the speed
field carried the value 0, yet `get_current_status` reports the stale value
5.0 — Python's `or` treats the fresh zero reading as unset. -/
theorem get_current_status_stale_zero :
    lastKin [Event.kin 5 1 1, Event.kin 0 0 2] = some (0, 0, 2) ∧
    (get_current_status [Event.kin 5 1 1, Event.kin 0 0 2]).speed_kph = 5 ∧
    (5 : ℚ) ≠ 0 :=
  ⟨rfl, rfl, by norm_num⟩

/-- C1 (amended): provided every applied frame carries strictly positive
(truthy) values for the fields it sets, `get_current_status` returns, for
each of the four fields, exactly the value carried by the most recent
applied frame that set that field, and only a field that no frame has ever
set reverts to the default 0.  (When a frame sets a field to zero, the zero
is treated as unset and an older nonzero value can be returned instead, as
the counterexample shows.) -/
theorem get_current_status_most_recent (events : List Event)
    (hwf : ∀ e ∈ events, wfEvent e) :
    get_current_status events =
      { speed_kph := ((lastKin events).map fun p => p.1).getD 0
        incline_deg := ((lastKin events).map fun p => p.2.1).getD 0
        distance_km := ((lastKin events).map fun p => p.2.2).getD 0
        seconds_total := (lastTim events).getD 0 } := by
  have hwfr : ∀ e ∈ events.reverse, wfEvent e := by
    intro e he
    exact hwf e (List.mem_reverse.1 he)
  unfold get_current_status lastKin lastTim
  rw [statusAux_resolve events.reverse 0 0 0 0 hwfr le_rfl le_rfl le_rfl le_rfl
      (fun h => absurd rfl h)]
  simp [resolve_zero]

/-- C1 witness: a concrete run of the amended statement, on a kinematic
frame followed by an elapsed-time frame. -/
theorem get_current_status_most_recent_witness :
    get_current_status [Event.kin 5 1 1, Event.tim 7] =
      { speed_kph := 5, incline_deg := 1, distance_km := 1, seconds_total := 7 } := by
  have h := get_current_status_most_recent [Event.kin 5 1 1, Event.tim 7]
    (by
      intro e he
      rcases he with _ | ⟨_, he⟩
      · exact ⟨by norm_num, by norm_num, by norm_num⟩
      · rcases he with _ | ⟨_, he⟩
        · show (0 : ℚ) < 7; norm_num
        · cases he)
  rw [h]
  rfl

/-- C2: the decoder is not total.  A 12-byte buffer whose first byte is
`0x00` passes the length guard but `struct.unpack_from("<H", data, 12)`
needs 14 bytes, so both decoders raise at this input (modelled as
`.error ()`), contrary to the decoder being safe to fuzz with arbitrary
byte strings. -/
theorem parse_treadmill_data_raises_on_short_kinematic :
    (List.replicate 12 0).length = 12 ∧
    parse_treadmill_data (List.replicate 12 0) = .error () ∧
    app_parse_treadmill_data (List.replicate 12 0) = .error () :=
  ⟨rfl, rfl, rfl⟩

/-- C3 counterexample: a 12-byte frame with discriminator `0x02` is surfaced
as `Unknown` (the code's recognized control bytes are `0xFF`/`0xFE`, not
`0x02`), while a frame with discriminator `0xFF` — outside the claim's four
values — is silently `Ignored` rather than surfaced as `Unknown`. -/
theorem parse_discriminators_claim_false :
    parse_treadmill_data [0x02, 0, 0, 0, 0, 0, 0, 0, 0, 0, 0, 0] = .ok .unknown ∧
    parse_treadmill_data [0xFF, 0, 0, 0, 0, 0, 0, 0, 0, 0, 0, 0] = .ok .ignored :=
  ⟨rfl, rfl⟩

/-- C3 (amended): the CLI decoder recognizes exactly four discriminator
values — `0x00` (kinematic), `0x01` (elapsed-time), `0xFF` and `0xFE`
(acknowledgement/control, decoded as Ignored with no event appended) — and
every discriminator outside these four is surfaced as Unknown for diagnostic
logging, also with no event appended and without raising; the app-variant
decoder instead silently ignores every discriminator other than
`0x00`/`0x01`, surfacing nothing. -/
theorem parse_discriminators (data : List ℕ) (h : ¬data.length < 12) :
    ((data.headD 0 = 0xFF ∨ data.headD 0 = 0xFE) →
      parse_treadmill_data data = .ok .ignored ∧ eventsOf .ignored = []) ∧
    (data.headD 0 ≠ 0x00 → data.headD 0 ≠ 0x01 → data.headD 0 ≠ 0xFF →
      data.headD 0 ≠ 0xFE →
      parse_treadmill_data data = .ok .unknown ∧ eventsOf .unknown = []) ∧
    (data.headD 0 ≠ 0x00 → data.headD 0 ≠ 0x01 →
      app_parse_treadmill_data data = .ok .ignored) := by
  cases data with
  | nil => exact absurd (by norm_num) h
  | cons x xs =>
    refine ⟨?_, ?_, ?_⟩
    · rintro (hb | hb) <;> simp_all [parse_treadmill_data, eventsOf]
    · intro h0 h1 hFF hFE
      simp_all [parse_treadmill_data, eventsOf]
    · intro h0 h1
      simp_all [app_parse_treadmill_data]

/-- C3 witness: the amended statement evaluated at a `0xFE` frame and at a
`0x37` frame, both 12 bytes long. -/
theorem parse_discriminators_witness :
    parse_treadmill_data [0xFE, 0, 0, 0, 0, 0, 0, 0, 0, 0, 0, 0] = .ok .ignored ∧
    parse_treadmill_data [0x37, 0, 0, 0, 0, 0, 0, 0, 0, 0, 0, 0] = .ok .unknown ∧
    app_parse_treadmill_data [0x37, 0, 0, 0, 0, 0, 0, 0, 0, 0, 0, 0] = .ok .ignored :=
  ⟨((parse_discriminators [0xFE, 0, 0, 0, 0, 0, 0, 0, 0, 0, 0, 0]
      (by norm_num)).1 (Or.inr rfl)).1,
   ((parse_discriminators [0x37, 0, 0, 0, 0, 0, 0, 0, 0, 0, 0, 0]
      (by norm_num)).2.1 (by norm_num) (by norm_num) (by norm_num) (by norm_num)).1,
   (parse_discriminators [0x37, 0, 0, 0, 0, 0, 0, 0, 0, 0, 0, 0]
      (by norm_num)).2.2 (by norm_num) (by norm_num)⟩

/-- C8: every buffer shorter than 12 bytes is treated as Ignored by both
decoders: no exception, no error surfaced, and no reading appended. -/
theorem parse_short_buffer_ignored (data : List ℕ) (h : data.length < 12) :
    parse_treadmill_data data = .ok .ignored ∧
    app_parse_treadmill_data data = .ok .ignored ∧
    eventsOf .ignored = [] := by
  refine ⟨?_, ?_, rfl⟩ <;>
    simp [parse_treadmill_data, app_parse_treadmill_data, h]

/-- C8 witness: the empty buffer and an 11-byte kinematic-looking buffer. -/
theorem parse_short_buffer_ignored_witness :
    parse_treadmill_data [] = .ok .ignored ∧
    app_parse_treadmill_data [0, 1, 2, 3, 4, 5, 6, 7, 8, 9, 10] = .ok .ignored :=
  ⟨(parse_short_buffer_ignored [] (by norm_num)).1,
   (parse_short_buffer_ignored [0, 1, 2, 3, 4, 5, 6, 7, 8, 9, 10] (by norm_num)).2.1⟩

/-- C5: for every grade function, `calculate_calories` returns 0 for
non-positive duration; otherwise it computes exactly the spec's formula
(`estimate_spec` transcribes §4.5 word for word); and whenever the grade
function sends incline 0 to grade 0 — as `tan ∘ radians` does — the two
numeric anchor points of the spec hold within their stated tolerances. -/
theorem calculate_calories_spec (tanRad : ℚ → ℚ) :
    (∀ w s i d, d ≤ 0 → calculate_calories tanRad w s i d = 0) ∧
    (∀ w s i d, calculate_calories tanRad w s i d = estimate_spec tanRad w s i d) ∧
    (tanRad 0 = 0 →
      |calculate_calories tanRad 86 5 0 60 - 5.088| ≤ 0.01 ∧
      |calculate_calories tanRad 86 10 0 60 - 15.84| ≤ 0.05) := by
  refine ⟨fun w s i d hd => by simp [calculate_calories, hd],
          fun w s i d => rfl, fun ht => ⟨?_, ?_⟩⟩
  · have h5 : calculate_calories tanRad 86 5 0 60 = 3053 / 600 := by
      norm_num [calculate_calories, ht]
    rw [h5, abs_le]
    constructor <;> norm_num
  · have h10 : calculate_calories tanRad 86 10 0 60 = 9503 / 600 := by
      norm_num [calculate_calories, ht]
    rw [h10, abs_le]
    constructor <;> norm_num

/-- C5 witness: the three parts at concrete inputs, with the grade function
instantiated to the zero function (which agrees with `tan ∘ radians` at
incline 0, the only point these inputs evaluate it at). -/
theorem calculate_calories_spec_witness :
    calculate_calories (fun _ => 0) 42 3 1 (-5) = 0 ∧
    calculate_calories (fun _ => 0) 86 5 0 60 = estimate_spec (fun _ => 0) 86 5 0 60 ∧
    |calculate_calories (fun _ => 0) 86 5 0 60 - 5.088| ≤ 0.01 ∧
    |calculate_calories (fun _ => 0) 86 10 0 60 - 15.84| ≤ 0.05 :=
  ⟨(calculate_calories_spec (fun _ => 0)).1 42 3 1 (-5) (by norm_num),
   (calculate_calories_spec (fun _ => 0)).2.1 86 5 0 60,
   ((calculate_calories_spec (fun _ => 0)).2.2 rfl).1,
   ((calculate_calories_spec (fun _ => 0)).2.2 rfl).2⟩

/-- C10: the estimator is not clamped at zero: at weight 86 kg, speed
5 km/h, incline −20 degrees and duration 60 s the result is strictly
negative, for every grade function whose value at −20 is at most −3/10
(the real `tan(radians(-20)) ≈ -0.364` satisfies this). -/
theorem calculate_calories_negative (tanRad : ℚ → ℚ)
    (h : tanRad (-20) ≤ -3/10) :
    calculate_calories tanRad 86 5 (-20) 60 < 0 := by
  have hres : calculate_calories tanRad 86 5 (-20) 60 =
      (3.5 + 0.1 * (5 * 1000 / 60) + 1.8 * (5 * 1000 / 60) * tanRad (-20)) *
        86 / 1000 * 5 * (60 / 60) := by
    norm_num [calculate_calories]
  rw [hres]
  nlinarith [h]

/-- C10 witness: the negative-calories theorem at a concrete grade
function. -/
theorem calculate_calories_negative_witness :
    calculate_calories (fun _ => -3/10) 86 5 (-20) 60 < 0 :=
  calculate_calories_negative (fun _ => -3/10) (by norm_num)

/-- C4: a consecutive pair with `distance_delta < -0.1` km or
`time_delta < -5` s contributes nothing to the aggregate totals — the
totals are returned unchanged, never decreased — no error is raised, and
the walk continues on the remaining pairs of the batch with the current
snapshot as the new previous point. -/
theorem reset_pair_contributes_nothing (sinRad tanRad : ℚ → ℚ) (w : ℚ)
    (prev curr : Snapshot) (t : RunTotals) (rest : List Snapshot)
    (h : curr.distance_km - prev.distance_km < -0.1 ∨
         curr.seconds_total - prev.seconds_total < -5) :
    segmentStep sinRad tanRad w (prev, t) curr = (curr, t) ∧
    List.foldl (segmentStep sinRad tanRad w) (prev, t) (curr :: rest) =
      List.foldl (segmentStep sinRad tanRad w) (curr, t) rest := by
  have h1 : segmentStep sinRad tanRad w (prev, t) curr = (curr, t) := by
    simp only [segmentStep]
    rw [if_pos h]
  exact ⟨h1, by rw [List.foldl_cons, h1]⟩

/-- C4 witness: the spec's own reset example, a pair with
`distance_delta = -0.5` km. -/
theorem reset_pair_contributes_nothing_witness :
    segmentStep (fun _ => 0) (fun _ => 0) 86
        (⟨0, 8, 1, 1, 100⟩, RunTotals.zero) ⟨30, 8, 1, 1/2, 100⟩ =
      (⟨30, 8, 1, 1/2, 100⟩, RunTotals.zero) :=
  (reset_pair_contributes_nothing (fun _ => 0) (fun _ => 0) 86
    ⟨0, 8, 1, 1, 100⟩ ⟨30, 8, 1, 1/2, 100⟩ RunTotals.zero []
    (Or.inl (by norm_num))).1

/-- C6: over a timestamp-sorted batch, a non-reset pair with positive
distance delta adds the delta to total distance and
`delta(m) * sin(radians(prev.incline))` to total elevation; a non-reset
pair with positive time delta adds the delta to total duration; the
reported average speed is `distance / duration * 3600` when the (possibly
wall-clock-fallback) duration is positive and 0 otherwise; and the spec's
two-snapshot example 0→1 km, 0→360 s at flat incline yields totals of
1 km, 360 s and 10 km/h. -/
theorem accumulation_and_average (sinRad tanRad : ℚ → ℚ) (w : ℚ) :
    (∀ (prev curr : Snapshot) (t : RunTotals),
      ¬(curr.distance_km - prev.distance_km < -0.1 ∨
        curr.seconds_total - prev.seconds_total < -5) →
      0 < curr.distance_km - prev.distance_km →
      (segmentStep sinRad tanRad w (prev, t) curr).2.total_distance_km =
          t.total_distance_km + (curr.distance_km - prev.distance_km) ∧
      (segmentStep sinRad tanRad w (prev, t) curr).2.total_elevation_gain_m =
          t.total_elevation_gain_m +
            (curr.distance_km - prev.distance_km) * 1000 * sinRad prev.incline_deg) ∧
    (∀ (prev curr : Snapshot) (t : RunTotals),
      ¬(curr.distance_km - prev.distance_km < -0.1 ∨
        curr.seconds_total - prev.seconds_total < -5) →
      0 < curr.seconds_total - prev.seconds_total →
      (segmentStep sinRad tanRad w (prev, t) curr).2.total_duration_sec =
        t.total_duration_sec + (curr.seconds_total - prev.seconds_total)) ∧
    (∀ pts : List Snapshot,
      (0 < (reconstruct sinRad tanRad w pts).total_duration_sec →
        (reconstruct sinRad tanRad w pts).avg_speed_kmh =
          (reconstruct sinRad tanRad w pts).total_distance_km /
            (reconstruct sinRad tanRad w pts).total_duration_sec * 3600) ∧
      (¬0 < (reconstruct sinRad tanRad w pts).total_duration_sec →
        (reconstruct sinRad tanRad w pts).avg_speed_kmh = 0)) ∧
    ((reconstruct sinRad tanRad w
        [⟨0, 0, 0, 0, 0⟩, ⟨1, 0, 0, 1, 360⟩]).total_distance_km = 1 ∧
      (reconstruct sinRad tanRad w
        [⟨0, 0, 0, 0, 0⟩, ⟨1, 0, 0, 1, 360⟩]).total_duration_sec = 360 ∧
      (reconstruct sinRad tanRad w
        [⟨0, 0, 0, 0, 0⟩, ⟨1, 0, 0, 1, 360⟩]).avg_speed_kmh = 10) := by
  refine ⟨?_, ?_, ?_, ?_, ?_, ?_⟩
  · intro prev curr t hres hdd
    simp only [segmentStep]
    rw [if_neg hres, if_pos hdd]
    split_ifs <;> simp
  · intro prev curr t hres hsd
    simp only [segmentStep]
    rw [if_neg hres]
    split_ifs <;> simp_all
  · intro pts
    constructor <;> intro hd <;>
      simp only [reconstruct] at hd ⊢ <;> split_ifs at hd ⊢ <;>
        first | rfl | linarith
  all_goals
    norm_num [reconstruct, sortByTimestamp, List.insertionSort, List.orderedInsert,
      walkPairs, segmentStep, RunTotals.zero, calculate_calories]

/-- C6 witness: a non-reset pair with positive distance and time deltas,
run through the step function. -/
theorem accumulation_and_average_witness :
    (segmentStep (fun _ => 0) (fun _ => 0) 86
        (⟨0, 5, 2, 1, 100⟩, RunTotals.zero) ⟨30, 5, 2, 3/2, 130⟩).2.total_distance_km
      = 1/2 ∧
    (segmentStep (fun _ => 0) (fun _ => 0) 86
        (⟨0, 5, 2, 1, 100⟩, RunTotals.zero) ⟨30, 5, 2, 3/2, 130⟩).2.total_duration_sec
      = 30 :=
  ⟨(((accumulation_and_average (fun _ => 0) (fun _ => 0) 86).1
      ⟨0, 5, 2, 1, 100⟩ ⟨30, 5, 2, 3/2, 130⟩ RunTotals.zero
      (by norm_num) (by norm_num)).1).trans (by norm_num [RunTotals.zero]),
   ((accumulation_and_average (fun _ => 0) (fun _ => 0) 86).2.1
      ⟨0, 5, 2, 1, 100⟩ ⟨30, 5, 2, 3/2, 130⟩ RunTotals.zero
      (by norm_num) (by norm_num)).trans (by norm_num [RunTotals.zero])⟩

/-- C7: a reconstructed run whose total distance is at most 0.01 km is not
exported — its source file is deleted — and every run with total distance
above 0.01 km is handed to the Export Pipeline. -/
theorem export_eligibility (sinRad tanRad : ℚ → ℚ) (w : ℚ)
    (docs : List YamlDoc) (hne : flattenDocs docs ≠ []) :
    ((reconstruct sinRad tanRad w (flattenDocs docs)).total_distance_km ≤ 0.01 →
      process_file sinRad tanRad w (.ok docs) =
        .deletedTooShort (reconstruct sinRad tanRad w (flattenDocs docs))) ∧
    (0.01 < (reconstruct sinRad tanRad w (flattenDocs docs)).total_distance_km →
      process_file sinRad tanRad w (.ok docs) =
        .exported (reconstruct sinRad tanRad w (flattenDocs docs))) := by
  cases hfd : flattenDocs docs with
  | nil => exact absurd hfd hne
  | cons p rest =>
    constructor <;> intro hcmp <;> simp only [process_file, hfd]
    · rw [if_pos hcmp]
    · rw [if_neg (not_le.2 hcmp)]

/-- C7 witness: a 0.005 km batch is discarded (file deleted, not exported)
and a 1 km batch is exported. -/
theorem export_eligibility_witness :
    process_file (fun _ => 0) (fun _ => 0) 86
        (.ok [.docList [⟨0, 0, 0, 0, 0⟩, ⟨30, 0, 0, 1/200, 360⟩]]) =
      .deletedTooShort (reconstruct (fun _ => 0) (fun _ => 0) 86
        (flattenDocs [.docList [⟨0, 0, 0, 0, 0⟩, ⟨30, 0, 0, 1/200, 360⟩]])) ∧
    process_file (fun _ => 0) (fun _ => 0) 86
        (.ok [.docList [⟨0, 0, 0, 0, 0⟩, ⟨30, 0, 0, 1, 360⟩]]) =
      .exported (reconstruct (fun _ => 0) (fun _ => 0) 86
        (flattenDocs [.docList [⟨0, 0, 0, 0, 0⟩, ⟨30, 0, 0, 1, 360⟩]])) :=
  ⟨(export_eligibility (fun _ => 0) (fun _ => 0) 86
      [.docList [⟨0, 0, 0, 0, 0⟩, ⟨30, 0, 0, 1/200, 360⟩]] (by simp [flattenDocs])).1
      (by norm_num [flattenDocs, reconstruct, sortByTimestamp, List.insertionSort,
        List.orderedInsert, walkPairs, segmentStep, RunTotals.zero, calculate_calories]),
   (export_eligibility (fun _ => 0) (fun _ => 0) 86
      [.docList [⟨0, 0, 0, 0, 0⟩, ⟨30, 0, 0, 1, 360⟩]] (by simp [flattenDocs])).2
      (by norm_num [flattenDocs, reconstruct, sortByTimestamp, List.insertionSort,
        List.orderedInsert, walkPairs, segmentStep, RunTotals.zero, calculate_calories])⟩

/-- C9 counterexample: an unparsable checkpoint file (the YAML loader
raises) is kept in place after the exception is caught and logged — it is
not deleted, contradicting the claim that empty or unparsable files are
deleted rather than retried. -/
theorem unparsable_file_kept :
    process_file (fun _ => 0) (fun _ => 0) 86 (.error ()) = .keptAfterError ∧
    (∀ r : RunSummary,
      FileOutcome.keptAfterError ≠ .deletedNoData ∧
      FileOutcome.keptAfterError ≠ .deletedTooShort r ∧
      FileOutcome.keptAfterError ≠ .exported r) :=
  ⟨rfl, fun _ => ⟨by simp, by simp, by simp⟩⟩

/-- C9 (amended): a checkpoint file that is empty — it yields no data
points after flattening — is deleted rather than retried, while a file
whose parsing raises is reported and left in place for a later pass. -/
theorem empty_file_deleted (sinRad tanRad : ℚ → ℚ) (w : ℚ)
    (docs : List YamlDoc) (h : flattenDocs docs = []) :
    process_file sinRad tanRad w (.ok docs) = .deletedNoData ∧
    (∀ e, process_file sinRad tanRad w (.error e) = .keptAfterError) := by
  refine ⟨?_, fun e => rfl⟩
  simp only [process_file, h]

/-- C9 witness: a file holding one non-record document and one empty
record-list is deleted as containing no data. -/
theorem empty_file_deleted_witness :
    process_file (fun _ => 0) (fun _ => 0) 86
        (.ok [YamlDoc.docOther, YamlDoc.docList []]) = .deletedNoData :=
  (empty_file_deleted (fun _ => 0) (fun _ => 0) 86
    [YamlDoc.docOther, YamlDoc.docList []] rfl).1

end TreddyMercury
